import Mathlib

/-!
Verification of the calculagraph attribute transformation (src/lib.rs).

The embedding mirrors the source: the directive arguments are modelled by
`NestedMeta`, the annotated item by `Item`, the four helper functions
`TimeUnit.fromString` (the `From<String> for TimeUnit` impl),
`read_time_unit`, `read_output_format`, `parse_args`, `parse_body` and the
synthesis function `builder` are translated clause by clause.  Rust panics
(`panic!`, out-of-bounds indexing, `Result::unwrap`) are modelled as the
`TimerError.panicErr` outcome of an `Except`, while `syn::Error::new(span,
msg)` becomes `TimerError.synErr` carrying the span it was given.
A small operational model (`runGenStmts`) gives the run-time meaning of the
synthesized statements, with the original body kept opaque as a function
from a start clock (nanoseconds) to a result and an end clock.
-/

namespace Calculagraph

/-- Opaque token text of one statement of the annotated function's body. -/
abbrev Stmt := String

/-- Opaque token text of one attribute attached to the annotated function. -/
abbrev Attr := String

/-- Opaque token text of the visibility marker of the annotated function. -/
abbrev Vis := String

/-- Opaque token text naming the output sink an entry point fixes
(for example the tokens `println!`). -/
abbrev Sink := String

/-- Function signature: the function's identifier (`sig.ident` in the source)
plus the remaining signature tokens (parameters, return type), opaque. -/
structure Signature where
  ident : String
  rest : String
deriving DecidableEq

/-- Model of `syn::NestedMeta` restricted to the shapes the source inspects:
a path (with its ordered segment identifiers), any other `Meta` form,
a string literal, and any other literal.  Each carries an abstract span. -/
inductive NestedMeta where
  | metaPath (sp : Nat) (segments : List String)
  | metaOther (sp : Nat)
  | litStr (sp : Nat) (value : String)
  | litOther (sp : Nat)
deriving DecidableEq

/-- Span of a directive argument, as `Spanned::span` in the source. -/
def NestedMeta.span : NestedMeta → Nat
  | .metaPath sp _ => sp
  | .metaOther sp => sp
  | .litStr sp _ => sp
  | .litOther sp => sp

/-- Whether an argument is a string literal (`NestedMeta::Lit(Lit::Str(_))`). -/
def NestedMeta.isLitStr : NestedMeta → Bool
  | .litStr _ _ => true
  | _ => false

/-- Model of `syn::ItemFn`: span, attributes, visibility, signature and the
ordered statements of the body block. -/
structure ItemFn where
  sp : Nat
  attrs : List Attr
  vis : Vis
  sig : Signature
  block : List Stmt
deriving DecidableEq

/-- Model of `syn::Item`: either a function item or any other item kind. -/
inductive Item where
  | fn (f : ItemFn)
  | other (sp : Nat) (desc : String)
deriving DecidableEq

/-- Span of the annotated item (`body.span()` in the source). -/
def Item.span : Item → Nat
  | .fn f => f.sp
  | .other sp _ => sp

/-- Transform-time failure.  `panicErr` models a Rust `panic!` (it carries a
message but no source span); `synErr` models `syn::Error::new(span, msg)`,
which records the span of the offending construct. -/
inductive TimerError where
  | panicErr (msg : String)
  | synErr (sp : Nat) (msg : String)
deriving DecidableEq

/-- Whether a transform-time failure records a source span. -/
def TimerError.hasSpan : TimerError → Bool
  | .panicErr _ => false
  | .synErr _ _ => true

/-- The `TimeUnit` enum of the source. -/
inductive TimeUnit where
  | S
  | MS
  | US
  | NS
deriving DecidableEq

/-- The duration accessor tokens `TimeUnit::quote` emits
(`as_secs()`, `as_millis()`, `as_micros()`, `as_nanos()`). -/
inductive DurSelector where
  | as_secs
  | as_millis
  | as_micros
  | as_nanos
deriving DecidableEq

/-- Translation of `TimeUnit::quote`: the selector matching the unit. -/
def TimeUnit.quote : TimeUnit → DurSelector
  | .S => .as_secs
  | .MS => .as_millis
  | .US => .as_micros
  | .NS => .as_nanos

/-- Translation of the `Display` impl for `TimeUnit`: its short name. -/
def TimeUnit.display : TimeUnit → String
  | .S => "s"
  | .MS => "ms"
  | .US => "us"
  | .NS => "ns"

/-- ASCII uppercasing, modelling `str::to_uppercase` on the unit tokens. -/
def to_uppercase (s : String) : String :=
  String.mk (s.data.map Char.toUpper)

/-- Message of the `panic!` in the `From<String> for TimeUnit` impl. -/
def invalidUnitMsg : String :=
  "Invalid unit of time, only `s`, `ms`, `us`, `ns` are supported"

/-- Translation of `impl From<String> for TimeUnit`: uppercase the token and
match it against the four unit names; anything else panics. -/
def TimeUnit.fromString (s : String) : Except TimerError TimeUnit :=
  let u := to_uppercase s
  if u = "S" then .ok .S
  else if u = "MS" then .ok .MS
  else if u = "US" then .ok .US
  else if u = "NS" then .ok .NS
  else .error (.panicErr invalidUnitMsg)

/-- The fixed `UID_SUFFIX` constant of the source. -/
def UID_SUFFIX : String :=
  "x7bf707c839bc2554fa3f1913a8dc699b68236726c5da18b31f660948ca7f542a267de9b"

/-- The injected start-timestamp identifier (`format_ident!` of `now_`). -/
def v_now_name : String := "now_" ++ UID_SUFFIX

/-- The injected result-holder identifier (`format_ident!` of `result_`). -/
def v_result_name : String := "result_" ++ UID_SUFFIX

/-- Message of the out-of-bounds panic raised by `segments[0]` on an empty
segment sequence. -/
def indexPanicMsg : String :=
  "index out of bounds: the len is 0 but the index is 0"

/-- Message of the `syn::Error` raised by `read_time_unit`. -/
def invalidArgMsg : String :=
  "Invalid argument, `TimeUnit` expected"

/-- Translation of `read_time_unit`: a path argument resolves through its
first segment (`segments[0]`, an unguarded index); any non-path argument is
rejected with a spanned error. -/
def read_time_unit (u : NestedMeta) : Except TimerError TimeUnit :=
  match u with
  | .metaPath _ segments =>
    match segments with
    | [] => .error (.panicErr indexPanicMsg)
    | s :: _ => TimeUnit.fromString s
  | _ => .error (.synErr u.span invalidArgMsg)

/-- Message of the `syn::Error` raised by `read_output_format`. -/
def invalidFormatMsg : String :=
  "Invalid FormatString, the usage is similar with macro `println!` or `format!`"

/-- Translation of `read_output_format`: a string literal yields its value
verbatim; anything else is rejected with a spanned error. -/
def read_output_format (f : NestedMeta) : Except TimerError String :=
  match f with
  | .litStr _ s => .ok s
  | _ => .error (.synErr f.span invalidFormatMsg)

/-- Message of the `panic!` in the catch-all arm of `parse_args`. -/
def tooManyArgsMsg : String :=
  "Invalid arguments, usage: [(TimeUnit[, OutputFormatString])]"

/-- Translation of `parse_args`: 0 arguments default to milliseconds and the
default format; 1 argument resolves the unit and derives the default format
from it; 2 arguments resolve the unit then read the format literal; any
longer list panics. -/
def parse_args (args : List NestedMeta) (fn_name : String) :
    Except TimerError (TimeUnit × String) :=
  match args with
  | [] => .ok (.MS, "fn:" ++ fn_name ++ " cost \x7b\x7dms")
  | [u] =>
    match read_time_unit u with
    | .error e => .error e
    | .ok uu => .ok (uu, "fn:" ++ fn_name ++ " cost \x7b\x7d" ++ uu.display)
  | [u, f] =>
    match read_time_unit u with
    | .error e => .error e
    | .ok uu =>
      match read_output_format f with
      | .error e => .error e
      | .ok ff => .ok (uu, ff)
  | _ => .error (.panicErr tooManyArgsMsg)

/-- Message of the `syn::Error` raised by `parse_body` on a non-function. -/
def unsupportedMsg : String :=
  "Statement other than function are not supported"

/-- Translation of `parse_body`: a function item is split into its four
parts, untouched; any other item is rejected with a spanned error. -/
def parse_body (body : Item) :
    Except TimerError (List Attr × Vis × Signature × List Stmt) :=
  match body with
  | .fn f => .ok (f.attrs, f.vis, f.sig, f.block)
  | .other sp _ => .error (.synErr sp unsupportedMsg)

/-- One statement of the synthesized body, mirroring the `quote!` template:
bind the current instant, bind the result of the immediately-invoked move
closure around the original statements, invoke the sink with the format
string and the elapsed duration through a selector, return the result. -/
inductive GenStmt where
  | letNow (v : String)
  | letCall (v : String) (stmts : List Stmt)
  | emitCall (sink : Sink) (fmt : String) (vNow : String) (sel : DurSelector)
  | retIdent (v : String)
deriving DecidableEq

/-- The synthesized function: attributes, visibility and signature carried
over, plus the new body statements. -/
structure GenFn where
  attrs : List Attr
  vis : Vis
  sig : Signature
  body : List GenStmt
deriving DecidableEq

/-- Translation of `builder`: decompose the item, parse the directive, then
assemble the replacement function following the `quote!` template. -/
def builder (args : List NestedMeta) (body : Item) (outputter : Sink) :
    Except TimerError GenFn :=
  match parse_body body with
  | .error e => .error e
  | .ok (f_attrs, f_vis, f_sig, f_block) =>
    match parse_args args f_sig.ident with
    | .error e => .error e
    | .ok (t_unit, o_format) =>
      .ok { attrs := f_attrs, vis := f_vis, sig := f_sig,
            body := [GenStmt.letNow v_now_name,
                     GenStmt.letCall v_result_name f_block,
                     GenStmt.emitCall outputter o_format v_now_name t_unit.quote,
                     GenStmt.retIdent v_result_name] }

/-- The sink fixed by `timer_println`. -/
def printlnSink : Sink := "println!"

/-- The sink fixed by `timer_log_info`. -/
def logInfoSink : Sink := "log::info!"

/-- The sink fixed by `timer_log_debug`. -/
def logDebugSink : Sink := "log::debug!"

/-- The sink fixed by `timer_log_trace`. -/
def logTraceSink : Sink := "log::trace!"

/-- Outcome of one entry point: either the replacement function, or the
panic `Result::unwrap` turns a transform-time error into. -/
inductive EntryResult where
  | emitted (g : GenFn)
  | panicked (e : TimerError)
deriving DecidableEq

/-- Model of `.unwrap()` on the builder's result: success passes the
replacement function through, failure becomes a fatal panic carrying the
error. -/
def unwrapResult : Except TimerError GenFn → EntryResult
  | .ok g => .emitted g
  | .error e => .panicked e

/-- Translation of the `timer_println` entry point. -/
def timer_println (attr : List NestedMeta) (input : Item) : EntryResult :=
  unwrapResult (builder attr input printlnSink)

/-- Translation of the `timer_log_info` entry point. -/
def timer_log_info (attr : List NestedMeta) (input : Item) : EntryResult :=
  unwrapResult (builder attr input logInfoSink)

/-- Translation of the `timer_log_debug` entry point. -/
def timer_log_debug (attr : List NestedMeta) (input : Item) : EntryResult :=
  unwrapResult (builder attr input logDebugSink)

/-- Translation of the `timer_log_trace` entry point. -/
def timer_log_trace (attr : List NestedMeta) (input : Item) : EntryResult :=
  unwrapResult (builder attr input logTraceSink)

/-- Identifiers bound by let statements of a synthesized body, in order. -/
def injectedIdents : List GenStmt → List String
  | [] => []
  | GenStmt.letNow v :: r => v :: injectedIdents r
  | GenStmt.letCall v _ :: r => v :: injectedIdents r
  | GenStmt.emitCall _ _ _ _ :: r => injectedIdents r
  | GenStmt.retIdent _ :: r => injectedIdents r

/-- Meaning of a duration selector on a duration given in nanoseconds:
`Duration::as_secs`, `as_millis`, `as_micros`, `as_nanos`. -/
def durationField : DurSelector → Nat → Nat
  | .as_secs, ns => ns / 1000000000
  | .as_millis, ns => ns / 1000000
  | .as_micros, ns => ns / 1000
  | .as_nanos, ns => ns

/-- Run-time value of an injected local: an instant (a clock reading in
nanoseconds) or the result the original body produced. -/
inductive Val (α : Type) where
  | instant (t : Nat)
  | res (a : α)

/-- Run-time state while executing a synthesized body: the wall clock in
nanoseconds, the local environment, the measurements emitted so far (sink,
format string, substituted numeric field), and how many times the original
body ran. -/
structure RunState (α : Type) where
  clock : Nat
  env : List (String × Val α)
  emits : List (Sink × String × Nat)
  bodyRuns : Nat

/-- Lookup of a local in the environment, innermost binding first. -/
def lookupVar {α : Type} (env : List (String × Val α)) (x : String) :
    Option (Val α) :=
  match env with
  | [] => none
  | (y, v) :: rest => if y = x then some v else lookupVar rest x

/-- Operational model of a synthesized body (the execution order §5 of the
spec fixes: timestamp, original body, elapsed, emit, return).  The original
statements stay opaque: `ex` maps them and a start clock to the produced
value and the end clock.  `Instant::now` reads the clock, the immediately
invoked closure runs `ex` and advances the clock, `elapsed` subtracts the
recorded instant from the current clock, and `return` yields the bound
result. -/
def runGenStmts {α : Type} (ex : List Stmt → Nat → α × Nat) :
    List GenStmt → RunState α → Option (α × RunState α)
  | [], _ => none
  | GenStmt.letNow v :: rest, s =>
    runGenStmts ex rest { s with env := (v, Val.instant s.clock) :: s.env }
  | GenStmt.letCall v stmts :: rest, s =>
    runGenStmts ex rest
      { s with clock := (ex stmts s.clock).2,
               env := (v, Val.res (ex stmts s.clock).1) :: s.env,
               bodyRuns := s.bodyRuns + 1 }
  | GenStmt.emitCall sink fmt vNow sel :: rest, s =>
    match lookupVar s.env vNow with
    | some (Val.instant t) =>
      runGenStmts ex rest
        { s with emits := s.emits ++ [(sink, fmt, durationField sel (s.clock - t))] }
    | _ => none
  | GenStmt.retIdent v :: _, s =>
    match lookupVar s.env v with
    | some (Val.res a) => some (a, s)
    | _ => none

/-- Demo function item used to instantiate witnesses. -/
def demoFn : ItemFn :=
  { sp := 0, attrs := ["inline_attr"], vis := "pub",
    sig := { ident := "main", rest := "()" }, block := ["sleep_ten_ms;"] }

/-- The replacement function `builder` yields for `demoFn` with no
directive arguments and the println sink. -/
def demoGen : GenFn :=
  { attrs := ["inline_attr"], vis := "pub",
    sig := { ident := "main", rest := "()" },
    body := [GenStmt.letNow v_now_name,
             GenStmt.letCall v_result_name ["sleep_ten_ms;"],
             GenStmt.emitCall printlnSink ("fn:main cost \x7b\x7dms") v_now_name
               DurSelector.as_millis,
             GenStmt.retIdent v_result_name] }

/-- Demo semantics of the opaque body: return 7 after 42 nanoseconds. -/
def demoEx : List Stmt → Nat → Nat × Nat := fun _ t => (7, t + 42)

/-- A directive with three arguments, used for the too-many-arguments
scenarios. -/
def threeArgs : List NestedMeta :=
  [NestedMeta.metaPath 0 ["ms"], NestedMeta.litStr 1 "a", NestedMeta.litStr 2 "b"]

/-- Decidable equality of `Except` results, used to evaluate the embedded
functions on concrete inputs. -/
instance {ε α : Type} [DecidableEq ε] [DecidableEq α] :
    DecidableEq (Except ε α) := fun x y =>
  match x, y with
  | .ok a, .ok b =>
    if h : a = b then isTrue (by rw [h]) else isFalse (by simp [h])
  | .ok _, .error _ => isFalse (by simp)
  | .error _, .ok _ => isFalse (by simp)
  | .error e, .error e' =>
    if h : e = e' then isTrue (by rw [h]) else isFalse (by simp [h])

/-- Helper: a token whose uppercasing is outside the four unit names makes
the resolver panic with the enumerating message. -/
theorem fromString_fail {s : String}
    (h : to_uppercase s ∉ (["S", "MS", "US", "NS"] : List String)) :
    TimeUnit.fromString s = .error (.panicErr invalidUnitMsg) := by
  simp only [List.mem_cons, List.not_mem_nil, or_false, not_or] at h
  obtain ⟨h1, h2, h3, h4⟩ := h
  simp [TimeUnit.fromString, h1, h2, h3, h4]

/-- C3.  The Time Unit Resolver succeeds exactly on the tokens whose
uppercasing is one of the four unit names, yielding the matching unit, and
on any other token it fails with the panic message enumerating the four
allowed tokens. -/
theorem time_unit_resolver_spec (s : String) :
    (TimeUnit.fromString s = .ok .S ↔ to_uppercase s = "S") ∧
    (TimeUnit.fromString s = .ok .MS ↔ to_uppercase s = "MS") ∧
    (TimeUnit.fromString s = .ok .US ↔ to_uppercase s = "US") ∧
    (TimeUnit.fromString s = .ok .NS ↔ to_uppercase s = "NS") ∧
    ((∃ u, TimeUnit.fromString s = .ok u) ↔
      to_uppercase s ∈ (["S", "MS", "US", "NS"] : List String)) ∧
    (to_uppercase s ∉ (["S", "MS", "US", "NS"] : List String) →
      TimeUnit.fromString s = .error (.panicErr invalidUnitMsg)) := by
  refine ⟨?_, ?_, ?_, ?_, ?_, fun h => fromString_fail h⟩ <;>
    simp only [TimeUnit.fromString] <;> split_ifs with h1 h2 h3 h4 <;> simp_all

/-- Witness for C3 at the concrete tokens `Ms` (accepted case-insensitively
as milliseconds) and `hours` (rejected with the enumerating message). -/
theorem time_unit_resolver_spec_witness :
    TimeUnit.fromString "Ms" = .ok .MS ∧
    TimeUnit.fromString "hours" = .error (.panicErr invalidUnitMsg) :=
  ⟨(time_unit_resolver_spec "Ms").2.1.2 (by decide),
   (time_unit_resolver_spec "hours").2.2.2.2.2 (by decide)⟩

/-- C4.  A directive with zero arguments parses to milliseconds with the
default format string, and a one-argument directive resolving to a unit
parses to that unit with the default format string ending in the unit's
short name. -/
theorem parse_args_defaults (fn_name : String) :
    parse_args [] fn_name = .ok (.MS, "fn:" ++ fn_name ++ " cost \x7b\x7dms") ∧
    ∀ a u, read_time_unit a = .ok u →
      parse_args [a] fn_name =
        .ok (u, "fn:" ++ fn_name ++ " cost \x7b\x7d" ++ u.display) := by
  refine ⟨rfl, ?_⟩
  intro a u h
  simp [parse_args, h]

/-- Witness for C4 at the one-argument directive with unit token `ns` on a
function named `f`. -/
theorem parse_args_defaults_witness :
    parse_args [NestedMeta.metaPath 0 ["ns"]] "f" =
      .ok (TimeUnit.NS, "fn:f cost \x7b\x7dns") := by
  have h := (parse_args_defaults "f").2 (NestedMeta.metaPath 0 ["ns"])
    TimeUnit.NS (by decide)
  simpa using h

/-- C5.  A directive argument list with three or more elements fails with
the too-many-arguments panic, whatever the arguments are; the message
states the accepted shapes. -/
theorem parse_args_too_many (a b c : NestedMeta) (rest : List NestedMeta)
    (fn_name : String) :
    parse_args (a :: b :: c :: rest) fn_name =
      .error (.panicErr tooManyArgsMsg) ∧
    tooManyArgsMsg = "Invalid arguments, usage: [(TimeUnit[, OutputFormatString])]" :=
  ⟨rfl, rfl⟩

/-- C6.  In a two-argument directive whose first argument resolves to a
unit, a string-literal second argument is used verbatim as the format, and
any other second argument fails with the spanned invalid-format error. -/
theorem parse_args_format_literal (a : NestedMeta) (u : TimeUnit)
    (fn_name : String) (h : read_time_unit a = .ok u) :
    (∀ sp s, parse_args [a, NestedMeta.litStr sp s] fn_name = .ok (u, s)) ∧
    (∀ f, f.isLitStr = false →
      parse_args [a, f] fn_name = .error (.synErr f.span invalidFormatMsg)) := by
  constructor
  · intro sp s
    simp [parse_args, h, read_output_format]
  · intro f hf
    cases f <;>
      simp_all [parse_args, h, read_output_format, NestedMeta.isLitStr,
        NestedMeta.span]

/-- Witness for C6: with first argument `us`, a literal format is taken
verbatim and a non-literal second argument is rejected with its span. -/
theorem parse_args_format_literal_witness :
    parse_args [NestedMeta.metaPath 0 ["us"], NestedMeta.litStr 1 "took \x7b\x7d micros"] "g" =
      .ok (TimeUnit.US, "took \x7b\x7d micros") ∧
    parse_args [NestedMeta.metaPath 0 ["us"], NestedMeta.litOther 1] "g" =
      .error (.synErr 1 invalidFormatMsg) :=
  ⟨(parse_args_format_literal (NestedMeta.metaPath 0 ["us"]) TimeUnit.US "g"
      (by decide)).1 1 "took \x7b\x7d micros",
   (parse_args_format_literal (NestedMeta.metaPath 0 ["us"]) TimeUnit.US "g"
      (by decide)).2 (NestedMeta.litOther 1) (by decide)⟩

/-- C7.  Decomposing a function item returns its attributes, visibility,
signature and body statements unchanged, and decomposing any other item
fails with the unsupported-target error spanned at the item. -/
theorem parse_body_spec :
    (∀ f : ItemFn, parse_body (.fn f) = .ok (f.attrs, f.vis, f.sig, f.block)) ∧
    (∀ sp d, parse_body (.other sp d) =
      .error (.synErr (Item.other sp d).span unsupportedMsg)) :=
  ⟨fun _ => rfl, fun _ _ => rfl⟩

/-- Helper: the builder succeeds on a function item exactly when the
directive parses, and then produces the template body. -/
theorem builder_fn_ok_iff (args : List NestedMeta) (f : ItemFn) (sink : Sink)
    (g : GenFn) :
    builder args (.fn f) sink = .ok g ↔
      ∃ u fmt, parse_args args f.sig.ident = .ok (u, fmt) ∧
        g = { attrs := f.attrs, vis := f.vis, sig := f.sig,
              body := [GenStmt.letNow v_now_name,
                       GenStmt.letCall v_result_name f.block,
                       GenStmt.emitCall sink fmt v_now_name u.quote,
                       GenStmt.retIdent v_result_name] } := by
  have hb : builder args (.fn f) sink =
      (match parse_args args f.sig.ident with
       | .error e => .error e
       | .ok (t_unit, o_format) =>
         .ok { attrs := f.attrs, vis := f.vis, sig := f.sig,
               body := [GenStmt.letNow v_now_name,
                        GenStmt.letCall v_result_name f.block,
                        GenStmt.emitCall sink o_format v_now_name t_unit.quote,
                        GenStmt.retIdent v_result_name] }) := rfl
  rw [hb]
  cases hpa : parse_args args f.sig.ident with
  | error e => simp
  | ok pr =>
    obtain ⟨u, fmt⟩ := pr
    constructor
    · intro h
      simp only [Except.ok.injEq] at h
      exact ⟨u, fmt, rfl, h.symm⟩
    · rintro ⟨u', fmt', hpa', rfl⟩
      simp only [Except.ok.injEq, Prod.mk.injEq] at hpa'
      simp [hpa'.1, hpa'.2]

/-- Helper: the builder rejects a non-function item with the spanned
unsupported-target error. -/
theorem builder_other_err (args : List NestedMeta) (sp : Nat) (d : String)
    (sink : Sink) :
    builder args (.other sp d) sink = .error (.synErr sp unsupportedMsg) := rfl

/-- C1.  For a directive that parses and a function item, the builder
produces a function with the same attributes, visibility and signature,
whose body is: bind the current instant to the first injected identifier,
bind the immediately-invoked closure around the original statements to the
second, invoke the sink with the resolved format and the elapsed duration
through the selector of the resolved unit, return the bound result. -/
theorem builder_shape (args : List NestedMeta) (f : ItemFn) (sink : Sink)
    (u : TimeUnit) (fmt : String)
    (h : parse_args args f.sig.ident = .ok (u, fmt)) :
    builder args (.fn f) sink = .ok
      { attrs := f.attrs, vis := f.vis, sig := f.sig,
        body := [GenStmt.letNow v_now_name,
                 GenStmt.letCall v_result_name f.block,
                 GenStmt.emitCall sink fmt v_now_name u.quote,
                 GenStmt.retIdent v_result_name] } :=
  (builder_fn_ok_iff args f sink _).2 ⟨u, fmt, h, rfl⟩

/-- Witness for C1: the empty directive on the demo function with the
println sink yields exactly the demo replacement function. -/
theorem builder_shape_witness :
    builder [] (.fn demoFn) printlnSink = .ok demoGen :=
  builder_shape [] demoFn printlnSink TimeUnit.MS "fn:main cost \x7b\x7dms"
    (by decide)

/-- C8.  Synthesis is deterministic: the builder is a function of its
inputs, and every successful run injects exactly the two fixed-suffix
identifiers, in the fixed statement order. -/
theorem builder_deterministic (args : List NestedMeta) (item : Item)
    (sink : Sink) :
    builder args item sink = builder args item sink ∧
    ∀ g, builder args item sink = .ok g →
      injectedIdents g.body = [v_now_name, v_result_name] ∧
      ∃ stmts fmt sel, g.body = [GenStmt.letNow v_now_name,
        GenStmt.letCall v_result_name stmts,
        GenStmt.emitCall sink fmt v_now_name sel,
        GenStmt.retIdent v_result_name] := by
  refine ⟨rfl, ?_⟩
  intro g hg
  cases item with
  | other sp d =>
    rw [builder_other_err] at hg
    exact absurd hg (by simp)
  | fn f =>
    obtain ⟨u, fmt, hpa, rfl⟩ := (builder_fn_ok_iff args f sink g).1 hg
    exact ⟨rfl, f.block, fmt, u.quote, rfl⟩

/-- Witness for C8 at the empty directive on the demo function. -/
theorem builder_deterministic_witness :
    builder [] (.fn demoFn) printlnSink = builder [] (.fn demoFn) printlnSink ∧
    (injectedIdents demoGen.body = [v_now_name, v_result_name] ∧
      ∃ stmts fmt sel, demoGen.body = [GenStmt.letNow v_now_name,
        GenStmt.letCall v_result_name stmts,
        GenStmt.emitCall printlnSink fmt v_now_name sel,
        GenStmt.retIdent v_result_name]) :=
  ⟨(builder_deterministic [] (.fn demoFn) printlnSink).1,
   (builder_deterministic [] (.fn demoFn) printlnSink).2 demoGen (by decide)⟩

/-- Helper: each duration selector is monotone in the duration. -/
theorem durationField_mono (sel : DurSelector) {a b : Nat} (h : a ≤ b) :
    durationField sel a ≤ durationField sel b := by
  cases sel <;> simp only [durationField] <;>
    first
      | exact Nat.div_le_div_right h
      | exact h

/-- Helper: the two injected identifiers are distinct. -/
theorem v_names_ne : v_result_name ≠ v_now_name := by decide

/-- C2.  Running the synthesized body from any start clock returns exactly
the value the opaque original body computes, runs that body exactly once,
emits exactly one measurement through the sink, whose numeric field is the
elapsed time converted to the requested unit — hence at least any lower
bound on the elapsed time expressed in that unit — and has no other
effect. -/
theorem generated_fn_semantics {α : Type} (args : List NestedMeta)
    (f : ItemFn) (sink : Sink) (g : GenFn) (ex : List Stmt → Nat → α × Nat)
    (t0 : Nat) (hg : builder args (.fn f) sink = .ok g) :
    ∃ u fmt, parse_args args f.sig.ident = .ok (u, fmt) ∧
      runGenStmts ex g.body
          { clock := t0, env := [], emits := [], bodyRuns := 0 } =
        some ((ex f.block t0).1,
          { clock := (ex f.block t0).2,
            env := [(v_result_name, Val.res (ex f.block t0).1),
                    (v_now_name, Val.instant t0)],
            emits := [(sink, fmt,
              durationField u.quote ((ex f.block t0).2 - t0))],
            bodyRuns := 1 }) ∧
      ∀ d, t0 + d ≤ (ex f.block t0).2 →
        durationField u.quote d ≤
          durationField u.quote ((ex f.block t0).2 - t0) := by
  obtain ⟨u, fmt, hpa, rfl⟩ := (builder_fn_ok_iff args f sink g).1 hg
  refine ⟨u, fmt, hpa, ?_, ?_⟩
  · simp [runGenStmts, lookupVar, v_names_ne]
  · intro d hd
    exact durationField_mono _ (by omega)

/-- Witness for C2: the demo function wrapped by the empty directive, with
the opaque body returning 7 after 42 nanoseconds, from clock 0. -/
theorem generated_fn_semantics_witness :
    ∃ u fmt, parse_args [] "main" = Except.ok (u, fmt) ∧
      runGenStmts demoEx demoGen.body
          { clock := 0, env := [], emits := [], bodyRuns := 0 } =
        some (7,
          { clock := 42,
            env := [(v_result_name, Val.res 7), (v_now_name, Val.instant 0)],
            emits := [(printlnSink, fmt, durationField u.quote 42)],
            bodyRuns := 1 }) ∧
      ∀ d, 0 + d ≤ 42 →
        durationField u.quote d ≤ durationField u.quote 42 :=
  generated_fn_semantics [] demoFn printlnSink demoGen demoEx 0 (by decide)

/-- C9 (amended).  Transform-time errors are fatal and propagate unchanged
through each of the four entry points, each with its descriptive message;
the invalid-format and unsupported-target errors carry the offending
construct's span, while the too-many-arguments and invalid-unit failures
are panics carrying no source-location information. -/
theorem errors_fatal_and_propagate :
    (∀ attr input e, builder attr input printlnSink = .error e →
      timer_println attr input = .panicked e) ∧
    (∀ attr input e, builder attr input logInfoSink = .error e →
      timer_log_info attr input = .panicked e) ∧
    (∀ attr input e, builder attr input logDebugSink = .error e →
      timer_log_debug attr input = .panicked e) ∧
    (∀ attr input e, builder attr input logTraceSink = .error e →
      timer_log_trace attr input = .panicked e) ∧
    (∀ attr input e, timer_println attr input = .panicked e →
      ∀ g, timer_println attr input ≠ .emitted g) ∧
    (∀ a b c rest n, parse_args (a :: b :: c :: rest) n =
      .error (.panicErr tooManyArgsMsg)) ∧
    (∀ s, to_uppercase s ∉ (["S", "MS", "US", "NS"] : List String) →
      TimeUnit.fromString s = .error (.panicErr invalidUnitMsg)) ∧
    (∀ nm, NestedMeta.isLitStr nm = false →
      read_output_format nm = .error (.synErr nm.span invalidFormatMsg)) ∧
    (∀ sp d, parse_body (.other sp d) = .error (.synErr sp unsupportedMsg)) ∧
    (∀ m, (TimerError.panicErr m).hasSpan = false) ∧
    (∀ sp m, (TimerError.synErr sp m).hasSpan = true) := by
  refine ⟨?_, ?_, ?_, ?_, ?_, ?_, ?_, ?_, ?_, ?_, ?_⟩
  · intro attr input e h
    simp [timer_println, h, unwrapResult]
  · intro attr input e h
    simp [timer_log_info, h, unwrapResult]
  · intro attr input e h
    simp [timer_log_debug, h, unwrapResult]
  · intro attr input e h
    simp [timer_log_trace, h, unwrapResult]
  · intro attr input e h g hcontra
    rw [h] at hcontra
    exact absurd hcontra (by simp)
  · intro a b c rest n
    rfl
  · intro s h
    exact fromString_fail h
  · intro nm h
    cases nm <;> simp_all [read_output_format, NestedMeta.isLitStr,
      NestedMeta.span]
  · intro sp d
    rfl
  · intro m
    rfl
  · intro sp m
    rfl

/-- Witness for C9: each implication exercised at a concrete input — the
three-argument directive through all four entry points (as a panic with the
too-many-arguments message), fatality at that input, the invalid unit token
`hours`, a non-literal second argument, and a non-function item. -/
theorem errors_fatal_and_propagate_witness :
    timer_println threeArgs (.fn demoFn) =
      .panicked (.panicErr tooManyArgsMsg) ∧
    timer_log_info threeArgs (.fn demoFn) =
      .panicked (.panicErr tooManyArgsMsg) ∧
    timer_log_debug threeArgs (.fn demoFn) =
      .panicked (.panicErr tooManyArgsMsg) ∧
    timer_log_trace threeArgs (.fn demoFn) =
      .panicked (.panicErr tooManyArgsMsg) ∧
    timer_println threeArgs (.fn demoFn) ≠ .emitted demoGen ∧
    TimeUnit.fromString "hours" = .error (.panicErr invalidUnitMsg) ∧
    read_output_format (NestedMeta.metaOther 5) =
      .error (.synErr 5 invalidFormatMsg) :=
  ⟨errors_fatal_and_propagate.1 threeArgs (.fn demoFn)
     (.panicErr tooManyArgsMsg) (by decide),
   errors_fatal_and_propagate.2.1 threeArgs (.fn demoFn)
     (.panicErr tooManyArgsMsg) (by decide),
   errors_fatal_and_propagate.2.2.1 threeArgs (.fn demoFn)
     (.panicErr tooManyArgsMsg) (by decide),
   errors_fatal_and_propagate.2.2.2.1 threeArgs (.fn demoFn)
     (.panicErr tooManyArgsMsg) (by decide),
   errors_fatal_and_propagate.2.2.2.2.1 threeArgs (.fn demoFn)
     (.panicErr tooManyArgsMsg) (by decide) demoGen,
   errors_fatal_and_propagate.2.2.2.2.2.2.1 "hours" (by decide),
   errors_fatal_and_propagate.2.2.2.2.2.2.2.1 (NestedMeta.metaOther 5)
     (by decide)⟩

/-- Counterexample to C9 as stated: the three-argument directive makes
`timer_println` fail with the too-many-arguments panic, and that error —
unlike the `syn::Error::new` failures — carries no source span at all, so
it does not reference the offending source location. -/
theorem error_without_source_span :
    timer_println threeArgs (.fn demoFn) =
      .panicked (.panicErr tooManyArgsMsg) ∧
    (TimerError.panicErr tooManyArgsMsg).hasSpan = false :=
  ⟨rfl, rfl⟩

/-- C10.  Unit resolution of a path argument inspects only the first path
segment: for a non-empty segment list the outcome is exactly the resolver's
on the first segment (so later segments never matter), a first segment
`ms` is accepted as milliseconds whatever follows, an invalid first
segment is rejected whatever follows, and the unguarded `segments[0]`
index panics on an empty segment list. -/
theorem read_time_unit_first_segment :
    (∀ sp s rest, read_time_unit (.metaPath sp (s :: rest)) =
      TimeUnit.fromString s) ∧
    (∀ sp rest, read_time_unit (.metaPath sp ("ms" :: rest)) =
      .ok TimeUnit.MS) ∧
    (∀ sp s rest, to_uppercase s ∉ (["S", "MS", "US", "NS"] : List String) →
      read_time_unit (.metaPath sp (s :: rest)) =
        .error (.panicErr invalidUnitMsg)) ∧
    (∀ sp, read_time_unit (.metaPath sp []) =
      .error (.panicErr indexPanicMsg)) := by
  refine ⟨fun _ _ _ => rfl, ?_, ?_, fun _ => rfl⟩
  · intro sp rest
    show TimeUnit.fromString "ms" = Except.ok TimeUnit.MS
    decide
  · intro sp s rest h
    show TimeUnit.fromString s = _
    exact fromString_fail h

/-- Witness for C10: a two-segment path with valid first segment is
accepted as milliseconds, and one with invalid first segment is rejected
despite its second segment being a valid unit token. -/
theorem read_time_unit_first_segment_witness :
    read_time_unit (.metaPath 3 ["ms", "anything"]) = .ok TimeUnit.MS ∧
    read_time_unit (.metaPath 3 ["hours", "ms"]) =
      .error (.panicErr invalidUnitMsg) :=
  ⟨read_time_unit_first_segment.2.1 3 ["anything"],
   read_time_unit_first_segment.2.2.1 3 "hours" ["ms"] (by decide)⟩

end Calculagraph
